import Mathlib

/-!
Verification of the release-pipeline skip/aggregation protocol and the
webhook announce stage (goreleaser), over a shallow embedding of the
source. `src/internal/pipe/webhook/webhook.go` is embedded directly; the
pipe package itself (Skip, IsSkip, SkipMemento) and the template resolver
are only exercised by the sources, so they are modelled from the spec
where noted.
-/

namespace pipe

/-- Modelled from the spec: a stage outcome error value. The pipe package
source (pipe.go) is missing from src; only its tests are present. An error
is either a Skip outcome carrying a reason, or a plain error constructed
outside the Skip constructor (errors.New). -/
inductive GoError where
  | skipErr (reason : String)
  | plainErr (msg : String)
deriving DecidableEq, Repr

/-- Modelled from the spec: the error message (Go Error() string). A Skip
outcome's message is its reason; a plain error's message is its text. -/
def GoError.message : GoError → String
  | .skipErr r => r
  | .plainErr m => m

/-- Modelled from the spec: `Skip(reason)` constructs a Skip outcome
carrying a human-readable reason (pipe.go missing from src). -/
def Skip (reason : String) : GoError := .skipErr reason

/-- Modelled from the spec: `IsSkip(outcome)` tests the Skip tag
(pipe.go missing from src). -/
def IsSkip : GoError → Bool
  | .skipErr _ => true
  | .plainErr _ => false

/-- Modelled from the spec: joining of remembered reasons with the fixed
separator (strings.Join with a comma-space separator). -/
def joinComma : List String → String
  | [] => ""
  | [x] => x
  | x :: xs => x ++ (", ") ++ joinComma xs

/-- Modelled from the spec: the aggregator. It holds the ordered,
deduplicated collection of remembered reason strings (pipe.go missing
from src). -/
structure SkipMemento where
  errs : List String := []
deriving DecidableEq, Repr

/-- Modelled from the spec: `Remember` folds one outcome into the running
collection. A Success outcome (nil error) is ignored; a Skip or Failure
reason is appended unless an identical reason string is already present
(deduplication by exact string match). -/
def SkipMemento.Remember (m : SkipMemento) (out : Option GoError) : SkipMemento :=
  match out with
  | none => m
  | some e => if m.errs.contains e.message then m else ⟨m.errs ++ [e.message]⟩

/-- Modelled from the spec: `Evaluate` returns nil when nothing was
remembered, otherwise a single Skip error whose description is every
remembered reason joined with the fixed separator, in first-seen order
(the test requires the result itself to satisfy IsSkip). -/
def SkipMemento.Evaluate (m : SkipMemento) : Option GoError :=
  if m.errs = [] then none else some (Skip (joinComma m.errs))

end pipe

/-- Claim C1: remembering outcomes with reasons "foo", "bar", "dupe",
"dupe" in that order and then evaluating yields a single error whose
message is exactly "foo, bar, dupe": reasons joined with the separator
in first-seen order, with exact-string duplicates collapsed. -/
theorem skipMemento_foo_bar_dupe :
    (((((({} : pipe.SkipMemento).Remember (some (pipe.Skip ("foo")))).Remember
        (some (pipe.Skip ("bar")))).Remember
        (some (pipe.Skip ("dupe")))).Remember
        (some (pipe.Skip ("dupe")))).Evaluate).map pipe.GoError.message =
      some ("foo, bar, dupe") := by
  decide

/-- Claim C2: every outcome built by the Skip constructor satisfies
IsSkip, and every plain error built outside the Skip constructor does
not. -/
theorem isSkip_iff_skip_constructor :
    (∀ r : String, pipe.IsSkip (pipe.Skip r) = true) ∧
    (∀ s : String, pipe.IsSkip (pipe.GoError.plainErr s) = false) :=
  ⟨fun _ => rfl, fun _ => rfl⟩

/-- Claim C3: an aggregator on which nothing was remembered evaluates to
no error (nil). -/
theorem skipMemento_empty_evaluates_nil :
    ({} : pipe.SkipMemento).Evaluate = none := by
  decide

/-- Claim C8: for every reason string r, the error produced by Skip(r)
has message exactly r, with no prefix, suffix or formatting added. -/
theorem skip_message_is_reason (r : String) :
    (pipe.Skip r).message = r := rfl

/-- Claim C9: whenever the aggregator's Evaluate returns a non-nil error,
that error is itself a Skip outcome: IsSkip holds of it. -/
theorem skipMemento_evaluate_isSkip (m : pipe.SkipMemento) (e : pipe.GoError)
    (h : m.Evaluate = some e) : pipe.IsSkip e = true := by
  unfold pipe.SkipMemento.Evaluate at h
  by_cases hm : m.errs = []
  · simp [hm] at h
  · simp [hm] at h
    subst h
    rfl

/-- Witness for C9 at a concrete memento. -/
theorem skipMemento_evaluate_isSkip_witness :
    pipe.IsSkip (pipe.Skip ("x, y")) = true :=
  skipMemento_evaluate_isSkip ⟨["x", "y"]⟩ (pipe.Skip ("x, y")) (by decide)

namespace webhook

/-- Webhook stage configuration (ctx.Config.Announce.Webhook in
webhook.go): enable expression, message template, content type,
expected status codes, endpoint URL, TLS-verification skip flag and
extra headers. -/
structure WebhookConfig where
  Enabled : String := ""
  MessageTemplate : String := ""
  ContentType : String := ""
  ExpectedStatusCodes : List Nat := []
  EndpointURL : String := ""
  SkipTLSVerify : Bool := false
  Headers : List (String × String) := []
deriving DecidableEq, Repr

/-- The Announce section of the configuration tree, restricted to the
webhook stage. -/
structure AnnounceConfig where
  Webhook : WebhookConfig := {}
deriving DecidableEq, Repr

/-- The configuration tree fields the webhook stage reads. -/
structure ProjectConfig where
  ProjectName : String := ""
  Announce : AnnounceConfig := {}
deriving DecidableEq, Repr

/-- The release context fields the webhook stage and the template
resolver read: the configuration tree, the tag and the release URL. -/
structure Context where
  Config : ProjectConfig := {}
  Tag : String := ""
  ReleaseURL : String := ""
deriving DecidableEq, Repr

/-- Modelled from the spec: the named context fields the template
resolver exposes (the tmpl package is missing from src). Unknown names
yield none, which the resolver turns into a template error. -/
def fieldValue (ctx : Context) (name : String) : Option String :=
  if name = "ProjectName" then some ctx.Config.ProjectName
  else if name = "Tag" then some ctx.Tag
  else if name = "ReleaseURL" then some ctx.ReleaseURL
  else none

/-- Drops leading spaces of a character list. -/
def dropSpaces : List Char → List Char
  | [] => []
  | c :: rest => if c = (' ') then dropSpaces rest else c :: rest

/-- Characters allowed in a template field name. -/
def nameChar (c : Char) : Bool := c.isAlphanum || c = ('_')

/-- Splits a character list into its longest name-character prefix and
the rest. -/
def spanName : List Char → List Char × List Char
  | [] => ([], [])
  | c :: rest =>
    if nameChar c then
      let p := spanName rest
      (c :: p.1, p.2)
    else ([], c :: rest)

/-- Modelled from the spec: the core of the template resolver (tmpl
package missing from src). Scans the template text; a field reference
written between double opening braces and double closing braces, as a
dot followed by a name, is replaced by the context field's value;
unknown field references fail with an error naming the unresolved
symbol; all other characters are copied through. Fuel bounds the
recursion. -/
def applyChars (ctx : Context) : Nat → List Char → Except String String
  | 0, _ => .error ("template: out of fuel")
  | _ + 1, [] => .ok ("")
  | fuel + 1, c :: cs =>
    if c = ('\x7b') then
      match cs with
      | c2 :: cs2 =>
        if c2 = ('\x7b') then
          match dropSpaces cs2 with
          | d :: r2 =>
            if d = ('.') then
              let p := spanName r2
              match dropSpaces p.2 with
              | e1 :: e2 :: r5 =>
                if e1 = ('\x7d') && e2 = ('\x7d') then
                  match fieldValue ctx (String.mk p.1) with
                  | some v =>
                    match applyChars ctx fuel r5 with
                    | .ok s => .ok (v ++ s)
                    | .error e => .error e
                  | none => .error (("template: unknown field .") ++ String.mk p.1)
                else .error ("template: bad syntax")
              | _ => .error ("template: bad syntax")
            else .error ("template: bad syntax")
          | [] => .error ("template: bad syntax")
        else
          match applyChars ctx fuel (c2 :: cs2) with
          | .ok s => .ok (String.mk [c] ++ s)
          | .error e => .error e
      | [] => .ok (String.mk [c])
    else
      match applyChars ctx fuel cs with
      | .ok s => .ok (String.mk [c] ++ s)
      | .error e => .error e

/-- Modelled from the spec: `resolve(context, template)`, a pure,
deterministic function from context and template string to resolved
string or error, with no network or filesystem access (tmpl package
missing from src; tmpl.New(ctx).Apply in webhook.go). -/
def tmplApply (ctx : Context) (t : String) : Except String String :=
  applyChars ctx (t.length + 1) t.data

/-- Modelled from the spec: tmpl.New(ctx).Bool — a templated boolean
expression is resolved via the resolver and is true when the resolved
string is the word true; a resolution error is propagated with a false
value, Go style (value, error). -/
def tmplBool (ctx : Context) (s : String) : Bool × Option String :=
  match tmplApply ctx s with
  | .error e => (false, some e)
  | .ok r => (r == ("true"), none)

end webhook

namespace webhook

/-- The default message template constant of webhook.go (braces written
as hex escapes). -/
def defaultMessageTemplate : String :=
  "\x7b \"message\": \"\x7b\x7b .ProjectName \x7d\x7d \x7b\x7b .Tag \x7d\x7d is out! Check it out at \x7b\x7b .ReleaseURL \x7d\x7d\"\x7d"

/-- Header-key constant of webhook.go. -/
def contentTypeHeaderKey : String := "Content-Type"

/-- Header-key constant of webhook.go. -/
def userAgentHeaderKey : String := "User-Agent"

/-- Header-value constant of webhook.go. -/
def userAgentHeaderValue : String := "goreleaser"

/-- Header-key constant of webhook.go. -/
def authorizationHeaderKey : String := "Authorization"

/-- Default content-type constant of webhook.go. -/
def defaultContentType : String := "application/json; charset=utf-8"

/-- Default expected status codes of webhook.go: StatusOK,
StatusCreated, StatusAccepted, StatusNoContent. -/
def defaultExpectedStatusCodes : List Nat := [200, 201, 202, 204]

/-- Pipe.Skip of webhook.go: resolves the templated boolean Enabled
expression and returns its negation together with the resolution error,
Go style (value, error). -/
def Skip (ctx : Context) : Bool × Option String :=
  let p := tmplBool ctx ctx.Config.Announce.Webhook.Enabled
  (!p.1, p.2)

/-- Pipe.Default of webhook.go: fills the message template, content type
and expected status codes with their defaults when unset, leaves set
fields alone, and returns no error. The Go method mutates the context;
the embedding returns the updated context with the error. -/
def Default (ctx : Context) : Context × Option String :=
  let w0 := ctx.Config.Announce.Webhook
  let w1 := if w0.MessageTemplate = "" then { w0 with MessageTemplate := defaultMessageTemplate } else w0
  let w2 := if w1.ContentType = "" then { w1 with ContentType := defaultContentType } else w1
  let w3 := if w2.ExpectedStatusCodes.length = 0 then { w2 with ExpectedStatusCodes := defaultExpectedStatusCodes } else w2
  ({ ctx with Config := { ctx.Config with Announce := { Webhook := w3 } } }, none)

/-- The environment configuration of webhook.go: basic-auth and
bearer-token Authorization header values read from the environment. -/
structure envConfig where
  BasicAuthHeader : String := ""
  BearerTokenHeader : String := ""
deriving DecidableEq, Repr

/-- An HTTP response as webhook.go consumes it: numeric status code,
status line and body. -/
structure HttpResponse where
  StatusCode : Nat := 200
  Status : String := ""
  Body : String := ""
deriving DecidableEq, Repr

/-- The HTTP POST request webhook.go builds: target URL, body and the
headers in the order they are added. -/
structure HttpRequest where
  url : String := ""
  body : String := ""
  headers : List (String × String) := []
deriving DecidableEq, Repr

/-- The outcomes of the external calls Announce makes, passed in
explicitly: environment parsing (env.ParseAs), the two URL parses
(url.ParseRequestURI and url.Parse with its String round trip) and the
HTTP client call (client.Do). -/
structure AnnounceEffects where
  envCfg : Except String envConfig
  parseRequestURI : String → Except String Unit
  parseURL : String → Except String String
  doRequest : HttpRequest → Except String HttpResponse

/-- The request-building fragment of Pipe.Announce: content-type and
user-agent headers first, then at most one Authorization header (basic
auth when non-empty, otherwise bearer token when non-empty), then the
configured extra headers. -/
def buildRequest (cfg : envConfig) (ctx : Context) (endpointURL msg : String) : HttpRequest :=
  let hs := [(contentTypeHeaderKey, ctx.Config.Announce.Webhook.ContentType),
             (userAgentHeaderKey, userAgentHeaderValue)]
  let hs := if cfg.BasicAuthHeader ≠ "" then hs ++ [(authorizationHeaderKey, cfg.BasicAuthHeader)]
    else if cfg.BearerTokenHeader ≠ "" then hs ++ [(authorizationHeaderKey, cfg.BearerTokenHeader)]
    else hs
  { url := endpointURL, body := msg,
    headers := hs ++ ctx.Config.Announce.Webhook.Headers }

/-- Pipe.Announce of webhook.go with its external calls passed in as
AnnounceEffects: parse the environment, resolve and validate the
endpoint URL, resolve the message template, build and send the request,
and accept the response exactly when its status code is among the
expected status codes; every failure is returned as an error. -/
def Announce (eff : AnnounceEffects) (ctx : Context) : Option String :=
  match eff.envCfg with
  | .error e => some (("webhook: ") ++ e)
  | .ok cfg =>
    match tmplApply ctx ctx.Config.Announce.Webhook.EndpointURL with
    | .error e => some (("webhook: ") ++ e)
    | .ok endpointURLConfig =>
      if endpointURLConfig.length = 0 then some ("webhook: no endpoint url")
      else
        match eff.parseRequestURI endpointURLConfig with
        | .error e => some (("webhook: ") ++ e)
        | .ok _ =>
          match eff.parseURL endpointURLConfig with
          | .error e => some (("webhook: ") ++ e)
          | .ok endpointURL =>
            match tmplApply ctx ctx.Config.Announce.Webhook.MessageTemplate with
            | .error e => some (("webhook: ") ++ e)
            | .ok msg =>
              match eff.doRequest (buildRequest cfg ctx endpointURL msg) with
              | .error e => some (("webhook: ") ++ e)
              | .ok resp =>
                if !(ctx.Config.Announce.Webhook.ExpectedStatusCodes.contains resp.StatusCode) then
                  some (("request failed with status ") ++ resp.Status)
                else none

/-- The values of the Authorization headers of a header list. -/
def authValues (hs : List (String × String)) : List String :=
  (hs.filter (fun p => p.1 == authorizationHeaderKey)).map (fun p => p.2)

end webhook

/-- Claim C7: template resolution is a deterministic, pure function of
context and template: resolving the same template against the same
context twice yields identical results. -/
theorem tmplApply_deterministic (ctx : webhook.Context) (t : String) :
    webhook.tmplApply ctx t = webhook.tmplApply ctx t := rfl

/-- Claim C4: the webhook stage's Skip hook returns the negation of the
templated boolean Enabled expression, and when resolving that
expression fails it returns the error rather than silently treating the
stage as skipped. -/
theorem webhook_skip_negates_enabled (ctx : webhook.Context) :
    (∀ s, webhook.tmplApply ctx ctx.Config.Announce.Webhook.Enabled = .ok s →
      webhook.Skip ctx = (!(s == ("true")), none)) ∧
    (∀ e, webhook.tmplApply ctx ctx.Config.Announce.Webhook.Enabled = .error e →
      webhook.Skip ctx = (true, some e)) := by
  constructor
  · intro s hs
    simp [webhook.Skip, webhook.tmplBool, hs]
  · intro e he
    simp [webhook.Skip, webhook.tmplBool, he]

/-- A context whose webhook Enabled expression resolves to true. -/
def ctxEnabledTrue : webhook.Context :=
  { Config := { Announce := { Webhook := { Enabled := "true" } } } }

/-- A context whose webhook Enabled expression references an unknown
template field. -/
def ctxEnabledBad : webhook.Context :=
  { Config := { Announce := { Webhook := { Enabled := "\x7b\x7b .Nope \x7d\x7d" } } } }

/-- Witness for C4 at concrete contexts: an Enabled expression resolving
to true gives no skip and no error; a failing expression propagates the
error. -/
theorem webhook_skip_negates_enabled_witness :
    webhook.Skip ctxEnabledTrue = (false, none) ∧
    webhook.Skip ctxEnabledBad = (true, some ("template: unknown field .Nope")) := by
  constructor
  · have h := (webhook_skip_negates_enabled ctxEnabledTrue).1 ("true") rfl
    simpa using h
  · exact (webhook_skip_negates_enabled ctxEnabledBad).2
      ("template: unknown field .Nope") rfl

/-- Claim C5: the webhook stage's Default hook fills each unset field
with its default (message template, content type, expected status
codes), leaves every already-set field unchanged, leaves every other
context field unchanged, and always returns no error. -/
theorem webhook_default_fills_unset (ctx : webhook.Context) :
    (webhook.Default ctx).2 = none ∧
    ((webhook.Default ctx).1.Config.Announce.Webhook.MessageTemplate =
      if ctx.Config.Announce.Webhook.MessageTemplate = "" then webhook.defaultMessageTemplate
      else ctx.Config.Announce.Webhook.MessageTemplate) ∧
    ((webhook.Default ctx).1.Config.Announce.Webhook.ContentType =
      if ctx.Config.Announce.Webhook.ContentType = "" then webhook.defaultContentType
      else ctx.Config.Announce.Webhook.ContentType) ∧
    ((webhook.Default ctx).1.Config.Announce.Webhook.ExpectedStatusCodes =
      if ctx.Config.Announce.Webhook.ExpectedStatusCodes.length = 0 then webhook.defaultExpectedStatusCodes
      else ctx.Config.Announce.Webhook.ExpectedStatusCodes) ∧
    (webhook.Default ctx).1.Config.Announce.Webhook.Enabled = ctx.Config.Announce.Webhook.Enabled ∧
    (webhook.Default ctx).1.Config.Announce.Webhook.EndpointURL = ctx.Config.Announce.Webhook.EndpointURL ∧
    (webhook.Default ctx).1.Config.Announce.Webhook.SkipTLSVerify = ctx.Config.Announce.Webhook.SkipTLSVerify ∧
    (webhook.Default ctx).1.Config.Announce.Webhook.Headers = ctx.Config.Announce.Webhook.Headers ∧
    (webhook.Default ctx).1.Config.ProjectName = ctx.Config.ProjectName ∧
    (webhook.Default ctx).1.Tag = ctx.Tag ∧
    (webhook.Default ctx).1.ReleaseURL = ctx.ReleaseURL := by
  unfold webhook.Default
  by_cases h1 : ctx.Config.Announce.Webhook.MessageTemplate = "" <;>
    by_cases h2 : ctx.Config.Announce.Webhook.ContentType = "" <;>
      by_cases h3 : ctx.Config.Announce.Webhook.ExpectedStatusCodes.length = 0 <;>
        simp [h1, h2, h3]

/-- Claim C6: when Announce reaches the HTTP call and receives a
response, it returns no error exactly when the response's status code
is a member of the configured expected status codes, whose default is
200, 201, 202, 204; otherwise it returns the request-failed error. -/
theorem announce_expected_status (eff : webhook.AnnounceEffects)
    (ctx : webhook.Context) (cfg : webhook.envConfig)
    (u pu m : String) (resp : webhook.HttpResponse)
    (h1 : eff.envCfg = .ok cfg)
    (h2 : webhook.tmplApply ctx ctx.Config.Announce.Webhook.EndpointURL = .ok u)
    (h3 : u.length ≠ 0)
    (h4 : eff.parseRequestURI u = .ok ())
    (h5 : eff.parseURL u = .ok pu)
    (h6 : webhook.tmplApply ctx ctx.Config.Announce.Webhook.MessageTemplate = .ok m)
    (h7 : eff.doRequest (webhook.buildRequest cfg ctx pu m) = .ok resp) :
    (webhook.Announce eff ctx = none ↔
      resp.StatusCode ∈ ctx.Config.Announce.Webhook.ExpectedStatusCodes) ∧
    (resp.StatusCode ∉ ctx.Config.Announce.Webhook.ExpectedStatusCodes →
      webhook.Announce eff ctx = some (("request failed with status ") ++ resp.Status)) ∧
    webhook.defaultExpectedStatusCodes = [200, 201, 202, 204] := by
  have hmem : (ctx.Config.Announce.Webhook.ExpectedStatusCodes.contains resp.StatusCode) =
      decide (resp.StatusCode ∈ ctx.Config.Announce.Webhook.ExpectedStatusCodes) := by
    simp [List.contains]
  unfold webhook.Announce
  rw [h1, h2]
  simp only [h3, if_neg, h4, h5, h6, h7, hmem]
  by_cases hin : resp.StatusCode ∈ ctx.Config.Announce.Webhook.ExpectedStatusCodes <;>
    simp [hin, webhook.defaultExpectedStatusCodes]

/-- Effects whose external calls all succeed and answer status 200. -/
def effOK : webhook.AnnounceEffects :=
  { envCfg := .ok {},
    parseRequestURI := fun _ => .ok (),
    parseURL := fun u => .ok u,
    doRequest := fun _ => .ok { StatusCode := 200, Status := "200 OK", Body := "" } }

/-- A context with a plain endpoint URL, a plain message template and
expected status codes 200 and 201. -/
def ctxAnnounceOK : webhook.Context :=
  { Config := { Announce := { Webhook :=
      { EndpointURL := "http://example.com", MessageTemplate := "hi",
        ExpectedStatusCodes := [200, 201] } } } }

/-- Witness for C6 at concrete effects and context: status 200 is among
the expected codes 200 and 201, so Announce accepts the response. -/
theorem announce_expected_status_witness :
    webhook.Announce effOK ctxAnnounceOK = none := by
  have h := announce_expected_status effOK ctxAnnounceOK {}
    ("http://example.com") ("http://example.com") ("hi")
    { StatusCode := 200, Status := "200 OK", Body := "" }
    rfl rfl (by decide) rfl rfl rfl rfl
  exact h.1.mpr (by decide)

/-- Claim C10: provided the configured extra headers carry no
Authorization key of their own, the request Announce builds has at most
one Authorization header: the basic-auth environment value when it is
non-empty, otherwise the bearer-token environment value when that is
non-empty, otherwise none (basic auth takes precedence). -/
theorem announce_single_auth_header (cfg : webhook.envConfig)
    (ctx : webhook.Context) (u m : String)
    (h : ∀ p ∈ ctx.Config.Announce.Webhook.Headers, p.1 ≠ webhook.authorizationHeaderKey) :
    webhook.authValues (webhook.buildRequest cfg ctx u m).headers =
      (if cfg.BasicAuthHeader ≠ "" then [cfg.BasicAuthHeader]
       else if cfg.BearerTokenHeader ≠ "" then [cfg.BearerTokenHeader]
       else []) ∧
    (webhook.authValues (webhook.buildRequest cfg ctx u m).headers).length ≤ 1 := by
  have hcustom : (ctx.Config.Announce.Webhook.Headers.filter
      (fun p => p.1 == webhook.authorizationHeaderKey)) = [] := by
    rw [List.filter_eq_nil_iff]
    intro p hp
    simpa using h p hp
  have hmain : webhook.authValues (webhook.buildRequest cfg ctx u m).headers =
      (if cfg.BasicAuthHeader ≠ "" then [cfg.BasicAuthHeader]
       else if cfg.BearerTokenHeader ≠ "" then [cfg.BearerTokenHeader]
       else []) := by
    unfold webhook.authValues webhook.buildRequest
    by_cases hb : cfg.BasicAuthHeader = "" <;>
      by_cases ht : cfg.BearerTokenHeader = "" <;>
        simp [hb, ht, List.filter_append, hcustom, webhook.contentTypeHeaderKey,
          webhook.userAgentHeaderKey, webhook.authorizationHeaderKey] <;>
        exact fun a b hab => h (a, b) hab
  refine ⟨hmain, ?_⟩
  rw [hmain]
  by_cases hb : cfg.BasicAuthHeader = "" <;>
    by_cases ht : cfg.BearerTokenHeader = "" <;> simp [hb, ht]

/-- Witness for C10 at concrete inputs: with both environment values
set, only the basic-auth value is used. -/
theorem announce_single_auth_header_witness :
    webhook.authValues (webhook.buildRequest
      { BasicAuthHeader := "Basic b", BearerTokenHeader := "Bearer t" }
      { } ("u") ("m")).headers = ["Basic b"] := by
  have h := announce_single_auth_header
    { BasicAuthHeader := "Basic b", BearerTokenHeader := "Bearer t" }
    { } ("u") ("m") (by intro p hp; simp at hp)
  simpa using h.1
